import Mathlib

/-!
Verification of the ITU-R P.676 gaseous-attenuation module (itur/models/itu676.py).

The development shallowly embeds the module's numeric engine over the real
numbers: pure float formulas become functions on `ℝ` (with `Real.rpow` for
non-integer `**` and monoid powers for integer `**`), fallible paths become
`Except PyErr`, and the spectral-line datasets, the standard-atmosphere
profile, the refractive-index model and the integrated-water-vapour model —
external collaborators of the module — are passed as explicit parameters.
-/

/-- Runtime failures surfaced by the Python module: `nameError` for a
reference to an undefined class, `valueError` for an explicit `raise
ValueError`, `typeError` for a call whose argument count does not match the
callee's signature, `attributeError` for a method lookup on an instance that
does not define it. -/
inductive PyErr where
  | nameError
  | valueError
  | typeError
  | attributeError
  deriving DecidableEq, Repr

/-- The version instances that are actually defined in the module:
`_ITU676_11`, `_ITU676_10` and `_ITU676_9`.  Classes `_ITU676_1` ..
`_ITU676_8` are referenced by `__ITU676.__init__` but defined nowhere. -/
inductive Inst where
  | v11
  | v10
  | v9
  deriving DecidableEq, Repr

/-- `np.mod` on reals: `x - y * floor (x / y)`. -/
noncomputable def npMod (x y : ℝ) : ℝ := x - y * (⌊x / y⌋ : ℤ)

/-- `np.deg2rad`. -/
noncomputable def deg2rad (x : ℝ) : ℝ := x * Real.pi / 180

/-- `np.cumsum` on a list. -/
def cumsum (l : List ℝ) : List ℝ := (l.scanl (· + ·) 0).tail

/-- One row of a spectral-line dataset file: the center frequency followed by
the six coefficients `a1..a6` (oxygen) or `b1..b6` (water vapour). -/
structure LineRow where
  f0 : ℝ
  c1 : ℝ
  c2 : ℝ
  c3 : ℝ
  c4 : ℝ
  c5 : ℝ
  c6 : ℝ

/-- `__ITU676.__init__(version)`.  Versions 11, 10 and 9 construct the
corresponding instance; the branches for versions 8 down to 1 evaluate the
names `_ITU676_8()` .. `_ITU676_1()`, which are not defined anywhere in the
module, so those calls raise `NameError`; every other version reaches the
final `raise ValueError`. -/
def ITU676_init (version : Int) : Except PyErr Inst :=
  if version = 11 then Except.ok Inst.v11
  else if version = 10 then Except.ok Inst.v10
  else if version = 9 then Except.ok Inst.v9
  else if version = 8 then Except.error PyErr.nameError
  else if version = 7 then Except.error PyErr.nameError
  else if version = 6 then Except.error PyErr.nameError
  else if version = 5 then Except.error PyErr.nameError
  else if version = 4 then Except.error PyErr.nameError
  else if version = 3 then Except.error PyErr.nameError
  else if version = 2 then Except.error PyErr.nameError
  else if version = 1 then Except.error PyErr.nameError
  else Except.error PyErr.valueError

/-- `change_version(new_version)`: rebuilds the module-level `__model`. -/
def change_version (new_version : Int) : Except PyErr Inst :=
  ITU676_init new_version

/-- `get_version()`: reads `__model.__version__`, which each defined
instance sets in its `__init__`. -/
def get_version : Inst → Int
  | Inst.v11 => 11
  | Inst.v10 => 10
  | Inst.v9 => 9

/-- Claim C6: the claim states that `select_model_version(v)` succeeds and
round-trips through `current_model_version()` for every `v` in 1..11, and
raises a `ConfigurationError` for every other integer with no other failure
mode.  On the code, versions 9, 10 and 11 do round-trip and versions outside
1..11 do raise `ValueError`, but selecting any of versions 1..8 raises
`NameError` because the classes `_ITU676_1` .. `_ITU676_8` are referenced in
`__ITU676.__init__` yet defined nowhere in the module — contradicting the
class docstring, which lists P.676-1 .. P.676-11 as available versions. -/
theorem C6_version_eval :
    change_version 8 = Except.error PyErr.nameError ∧
    change_version 1 = Except.error PyErr.nameError ∧
    (change_version 9).map get_version = Except.ok 9 ∧
    (change_version 10).map get_version = Except.ok 10 ∧
    (change_version 11).map get_version = Except.ok 11 ∧
    change_version 0 = Except.error PyErr.valueError ∧
    change_version 12 = Except.error PyErr.valueError := by
  refine ⟨rfl, rfl, rfl, rfl, rfl, rfl, rfl⟩

namespace ITU676v10

/-- The helper `phi(rp, rt, a, b, c, d)` local to `_ITU676_10.gamma0_approx`. -/
noncomputable def phi676 (rp rt a b c d : ℝ) : ℝ :=
  rp ^ a * rt ^ b * Real.exp (c * (1 - rp) + d * (1 - rt))

/-- `delta` of `gamma0_approx`, the correction term of the `f > 120` band. -/
noncomputable def delta676 (rp rt : ℝ) : ℝ :=
  -0.00306 * phi676 rp rt 3.211 (-14.94) 1.583 (-16.37)

/-- `xi1` of `gamma0_approx`. -/
noncomputable def xi1 (rp rt : ℝ) : ℝ := phi676 rp rt 0.0717 (-1.8132) 0.0156 (-1.6515)

/-- `xi2` of `gamma0_approx`. -/
noncomputable def xi2 (rp rt : ℝ) : ℝ := phi676 rp rt 0.5146 (-4.6368) (-0.1921) (-5.7416)

/-- `xi3` of `gamma0_approx`. -/
noncomputable def xi3 (rp rt : ℝ) : ℝ := phi676 rp rt 0.3414 (-6.5851) 0.2130 (-8.5854)

/-- `xi4` of `gamma0_approx`. -/
noncomputable def xi4 (rp rt : ℝ) : ℝ := phi676 rp rt (-0.0112) 0.0092 (-0.1033) (-0.0009)

/-- `xi5` of `gamma0_approx`. -/
noncomputable def xi5 (rp rt : ℝ) : ℝ := phi676 rp rt 0.2705 (-2.7192) (-0.3016) (-4.1033)

/-- `xi6` of `gamma0_approx`. -/
noncomputable def xi6 (rp rt : ℝ) : ℝ := phi676 rp rt 0.2445 (-5.9191) 0.0422 (-8.0719)

/-- `xi7` of `gamma0_approx`. -/
noncomputable def xi7 (rp rt : ℝ) : ℝ := phi676 rp rt (-0.1833) 6.5589 (-0.2402) 6.131

/-- Anchor value `gamma54` of `gamma0_approx`. -/
noncomputable def gamma54 (rp rt : ℝ) : ℝ := 2.192 * phi676 rp rt 1.8286 (-1.9487) 0.4051 (-2.8509)

/-- Anchor value `gamma58` of `gamma0_approx`. -/
noncomputable def gamma58 (rp rt : ℝ) : ℝ := 12.59 * phi676 rp rt 1.0045 3.5610 0.1588 1.2834

/-- Anchor value `gamma60` of `gamma0_approx`. -/
noncomputable def gamma60 (rp rt : ℝ) : ℝ := 15.00 * phi676 rp rt 0.9003 4.1335 0.0427 1.6088

/-- Anchor value `gamma62` of `gamma0_approx`. -/
noncomputable def gamma62 (rp rt : ℝ) : ℝ := 14.28 * phi676 rp rt 0.9886 3.4176 0.1827 1.3429

/-- Anchor value `gamma64` of `gamma0_approx`. -/
noncomputable def gamma64 (rp rt : ℝ) : ℝ := 6.819 * phi676 rp rt 1.4320 0.6258 0.3177 (-0.5914)

/-- Anchor value `gamma66` of `gamma0_approx`. -/
noncomputable def gamma66 (rp rt : ℝ) : ℝ := 1.908 * phi676 rp rt 2.0717 (-4.1404) 0.4910 (-4.8718)

/-- `_ITU676_10.gamma0_approx(f, P, T)`: dry-air specific attenuation, a
six-way branch on the frequency `f` (source lines 141-191). -/
noncomputable def gamma0_approx (f P T : ℝ) : ℝ :=
  let rp := P / 1013.0
  let rt := 288.0 / T
  if f ≤ 54 then
    ((7.2 * rt ^ (2.8 : ℝ)) / (f ^ 2 + 0.34 * rp ^ 2 * rt ^ (1.6 : ℝ)) +
        (0.62 * xi3 rp rt) / ((54 - f) ^ (1.16 * xi1 rp rt) + 0.83 * xi2 rp rt)) *
      f ^ 2 * rp ^ 2 * 1e-3
  else if 54 < f ∧ f ≤ 60 then
    Real.exp (Real.log (gamma54 rp rt) / 24.0 * (f - 58) * (f - 60) -
      Real.log (gamma58 rp rt) / 8.0 * (f - 54) * (f - 60) +
      Real.log (gamma60 rp rt) / 12.0 * (f - 54) * (f - 58))
  else if 60 < f ∧ f ≤ 62 then
    gamma60 rp rt + (gamma62 rp rt - gamma60 rp rt) * (f - 60) / 2.0
  else if 62 < f ∧ f ≤ 66 then
    Real.exp (Real.log (gamma62 rp rt) / 8.0 * (f - 64) * (f - 66) -
      Real.log (gamma64 rp rt) / 4.0 * (f - 62) * (f - 66) +
      Real.log (gamma66 rp rt) / 8.0 * (f - 62) * (f - 64))
  else if 66 < f ∧ f ≤ 120 then
    (3.02e-4 * rt ^ (3.5 : ℝ) +
        (0.283 * rt ^ (3.8 : ℝ)) / ((f - 118.75) ^ 2 + 2.91 * rp ^ 2 * rt ^ (1.6 : ℝ)) +
        (0.502 * xi6 rp rt * (1 - 0.0163 * xi7 rp rt * (f - 66))) /
          ((f - 66) ^ (1.4346 * xi4 rp rt) + 1.15 * xi5 rp rt)) *
      f ^ 2 * rp ^ 2 * 1e-3
  else
    ((3.02e-4) / (1 + 1.9e-5 * f ^ (1.5 : ℝ)) +
        (0.283 * rt ^ (0.3 : ℝ)) / ((f - 118.75) ^ 2 + 2.91 * rp ^ 2 * rt ^ (1.6 : ℝ))) *
      f ^ 2 * rp ^ 2 * rt ^ (3.5 : ℝ) * 1e-3 + delta676 rp rt

/-- The `f <= 54` branch of `gamma0_approx`, as a standalone band formula. -/
noncomputable def gamma0_band1 (f P T : ℝ) : ℝ :=
  let rp := P / 1013.0
  let rt := 288.0 / T
  ((7.2 * rt ^ (2.8 : ℝ)) / (f ^ 2 + 0.34 * rp ^ 2 * rt ^ (1.6 : ℝ)) +
      (0.62 * xi3 rp rt) / ((54 - f) ^ (1.16 * xi1 rp rt) + 0.83 * xi2 rp rt)) *
    f ^ 2 * rp ^ 2 * 1e-3

/-- The `54 < f <= 60` branch of `gamma0_approx`: log-domain quadratic
interpolation through the anchors `gamma54`, `gamma58`, `gamma60`. -/
noncomputable def gamma0_band2 (f P T : ℝ) : ℝ :=
  let rp := P / 1013.0
  let rt := 288.0 / T
  Real.exp (Real.log (gamma54 rp rt) / 24.0 * (f - 58) * (f - 60) -
    Real.log (gamma58 rp rt) / 8.0 * (f - 54) * (f - 60) +
    Real.log (gamma60 rp rt) / 12.0 * (f - 54) * (f - 58))

/-- The `60 < f <= 62` branch of `gamma0_approx`: linear interpolation
between the anchors `gamma60` and `gamma62`. -/
noncomputable def gamma0_band3 (f P T : ℝ) : ℝ :=
  let rp := P / 1013.0
  let rt := 288.0 / T
  gamma60 rp rt + (gamma62 rp rt - gamma60 rp rt) * (f - 60) / 2.0

/-- The `62 < f <= 66` branch of `gamma0_approx`: log-domain quadratic
interpolation through the anchors `gamma62`, `gamma64`, `gamma66`. -/
noncomputable def gamma0_band4 (f P T : ℝ) : ℝ :=
  let rp := P / 1013.0
  let rt := 288.0 / T
  Real.exp (Real.log (gamma62 rp rt) / 8.0 * (f - 64) * (f - 66) -
    Real.log (gamma64 rp rt) / 4.0 * (f - 62) * (f - 66) +
    Real.log (gamma66 rp rt) / 8.0 * (f - 62) * (f - 64))

/-- The `66 < f <= 120` branch of `gamma0_approx`. -/
noncomputable def gamma0_band5 (f P T : ℝ) : ℝ :=
  let rp := P / 1013.0
  let rt := 288.0 / T
  (3.02e-4 * rt ^ (3.5 : ℝ) +
      (0.283 * rt ^ (3.8 : ℝ)) / ((f - 118.75) ^ 2 + 2.91 * rp ^ 2 * rt ^ (1.6 : ℝ)) +
      (0.502 * xi6 rp rt * (1 - 0.0163 * xi7 rp rt * (f - 66))) /
        ((f - 66) ^ (1.4346 * xi4 rp rt) + 1.15 * xi5 rp rt)) *
    f ^ 2 * rp ^ 2 * 1e-3

/-- The `f > 120` branch of `gamma0_approx`, including the `delta`
correction term. -/
noncomputable def gamma0_band6 (f P T : ℝ) : ℝ :=
  let rp := P / 1013.0
  let rt := 288.0 / T
  ((3.02e-4) / (1 + 1.9e-5 * f ^ (1.5 : ℝ)) +
      (0.283 * rt ^ (0.3 : ℝ)) / ((f - 118.75) ^ 2 + 2.91 * rp ^ 2 * rt ^ (1.6 : ℝ))) *
    f ^ 2 * rp ^ 2 * rt ^ (3.5 : ℝ) * 1e-3 + delta676 rp rt

/-- `_ITU676_10.gammaw_approx(f, P, rho, T)`: water-vapour specific
attenuation (source lines 115-139). -/
noncomputable def gammaw_approx (f P rho T : ℝ) : ℝ :=
  let rp := P / 1013
  let rt := 288 / T
  let eta1 := 0.955 * rp * rt ^ (0.68 : ℝ) + 0.006 * rho
  let eta2 := 0.735 * rp * rt ^ (0.50 : ℝ) + 0.0353 * rt ^ 4 * rho
  let g := fun (fr fi : ℝ) => 1 + ((fr - fi) / (fr + fi)) ^ 2
  ((3.98 * eta1 * Real.exp (2.23 * (1 - rt))) /
      ((f - 22.235) ^ 2 + 9.42 * eta1 ^ 2) * g f 22.0 +
    (11.96 * eta1 * Real.exp (0.70 * (1 - rt))) /
      ((f - 183.310) ^ 2 + 11.14 * eta1 ^ 2) +
    (0.081 * eta1 * Real.exp (6.44 * (1 - rt))) /
      ((f - 321.226) ^ 2 + 6.29 * eta1 ^ 2) +
    (3.660 * eta1 * Real.exp (1.60 * (1 - rt))) /
      ((f - 325.153) ^ 2 + 9.22 * eta1 ^ 2) +
    (25.37 * eta1 * Real.exp (1.09 * (1 - rt))) / ((f - 380.000) ^ 2) +
    (17.40 * eta1 * Real.exp (1.46 * (1 - rt))) / ((f - 448.000) ^ 2) +
    (844.6 * eta1 * Real.exp (0.17 * (1 - rt))) / ((f - 557.000) ^ 2) *
      g f 557.0 +
    (290.0 * eta1 * Real.exp (0.41 * (1 - rt))) / ((f - 752.000) ^ 2) *
      g f 752.0 +
    (8.3328e4 * eta2 * Real.exp (0.99 * (1 - rt))) / ((f - 1780.00) ^ 2) *
      g f 1780.0) * f ^ 2 * rt ^ (2.5 : ℝ) * rho * 1e-4

end ITU676v10

/-- The addends of `gammaw_approx`, listed in source order: one
Lorentzian-like resonance term per line of the sum on source lines 123-138. -/
noncomputable def gammaw_terms (f P rho T : ℝ) : List ℝ :=
  let rp := P / 1013
  let rt := 288 / T
  let eta1 := 0.955 * rp * rt ^ (0.68 : ℝ) + 0.006 * rho
  let eta2 := 0.735 * rp * rt ^ (0.50 : ℝ) + 0.0353 * rt ^ 4 * rho
  let g := fun (fr fi : ℝ) => 1 + ((fr - fi) / (fr + fi)) ^ 2
  [(3.98 * eta1 * Real.exp (2.23 * (1 - rt))) /
      ((f - 22.235) ^ 2 + 9.42 * eta1 ^ 2) * g f 22.0,
   (11.96 * eta1 * Real.exp (0.70 * (1 - rt))) /
      ((f - 183.310) ^ 2 + 11.14 * eta1 ^ 2),
   (0.081 * eta1 * Real.exp (6.44 * (1 - rt))) /
      ((f - 321.226) ^ 2 + 6.29 * eta1 ^ 2),
   (3.660 * eta1 * Real.exp (1.60 * (1 - rt))) /
      ((f - 325.153) ^ 2 + 9.22 * eta1 ^ 2),
   (25.37 * eta1 * Real.exp (1.09 * (1 - rt))) / ((f - 380.000) ^ 2),
   (17.40 * eta1 * Real.exp (1.46 * (1 - rt))) / ((f - 448.000) ^ 2),
   (844.6 * eta1 * Real.exp (0.17 * (1 - rt))) / ((f - 557.000) ^ 2) * g f 557.0,
   (290.0 * eta1 * Real.exp (0.41 * (1 - rt))) / ((f - 752.000) ^ 2) * g f 752.0,
   (8.3328e4 * eta2 * Real.exp (0.99 * (1 - rt))) / ((f - 1780.00) ^ 2) * g f 1780.0]

namespace ITU676v10

/-- The condition under which `_ITU676_10.gaseous_attenuation_approximation`
emits its `RuntimeWarning` advisories (source lines 262-275): one warning
when `f > 350`, another when `(5 > el).any()` or `(np.mod(el, 90) < 5).any()`
over the array of elevation angles. -/
noncomputable def approx_advisory (f : ℝ) (el : List ℝ) : Prop :=
  350 < f ∨ ((∃ e ∈ el, e < 5) ∨ (∃ e ∈ el, npMod e 90 < 5))

/-- `_ITU676_10.gaseous_attenuation_approximation(f, el, rho, P, T)`: the
value it returns.  The elevation angle feeds only the warnings (modelled by
`approx_advisory`); the returned pair is `(gamma0_approx, gammaw_approx)`
regardless of any advisory. -/
noncomputable def gaseous_attenuation_approximation (f el rho P T : ℝ) : ℝ × ℝ :=
  (gamma0_approx f P T, gammaw_approx f P rho T)

/-- `_ITU676_10.slant_inclined_path_coefficients(f, p)`: the equivalent
heights `(h0, hw)` (source lines 284-305). -/
noncomputable def slant_inclined_path_coefficients (f p : ℝ) : ℝ × ℝ :=
  let rp := p / 1013.0
  let t1 := (4.64) / (1 + 0.066 * rp ^ (-2.3 : ℝ)) *
    Real.exp (-(((f - 59.7) / (2.87 + 12.4 * Real.exp (-7.9 * rp))) ^ 2))
  let t2 := (0.14 * Real.exp (2.21 * rp)) /
    ((f - 118.75) ^ 2 + 0.031 * Real.exp (2.2 * rp))
  let t3 := (0.0114) / (1 + 0.14 * rp ^ (-2.6 : ℝ)) * f *
    (-0.0247 + 0.0001 * f + 1.61e-6 * f ^ 2) /
    (1 - 0.0169 * f + 4.1e-5 * f ^ 2 + 3.2e-7 * f ^ 3)
  let h0 := (6.1) / (1 + 0.17 * rp ^ (-1.1 : ℝ)) * (1 + t1 + t2 + t3)
  let h0 := if f < 70 then min h0 (10.7 * rp ^ (0.3 : ℝ)) else h0
  let sigmaw := (1.013) / (1 + Real.exp (-8.6 * (rp - 0.57)))
  let hw := 1.66 * (1 + (1.39 * sigmaw) / ((f - 22.235) ^ 2 + 2.56 * sigmaw) +
    (3.37 * sigmaw) / ((f - 183.31) ^ 2 + 4.69 * sigmaw) +
    (1.58 * sigmaw) / ((f - 325.1) ^ 2 + 2.89 * sigmaw))
  (h0, hw)

/-- The contribution `Si_ox * F_i_ox` of one oxygen spectral line to `N''`
in `gaseous_attenuation_exact` (source lines 225-247, one dataset row). -/
noncomputable def ox_line_contrib (f p e theta : ℝ) (L : LineRow) : ℝ :=
  let D_f_ox0 := L.c3 * 1e-4 * (p * theta ^ (0.8 - L.c4) + 1.1 * e * theta)
  let D_f_ox := Real.sqrt (D_f_ox0 ^ 2 + 2.25e-6)
  let delta_ox := (L.c5 + L.c6 * theta) * 1e-4 * (p + e) * theta ^ (0.8 : ℝ)
  let F_i_ox := f / L.f0 * ((D_f_ox - delta_ox * (L.f0 - f)) /
      ((L.f0 - f) ^ 2 + D_f_ox ^ 2) +
    (D_f_ox - delta_ox * (L.f0 + f)) / ((L.f0 + f) ^ 2 + D_f_ox ^ 2))
  let Si_ox := L.c1 * 1e-7 * p * theta ^ 3 * Real.exp (L.c2 * (1 - theta))
  Si_ox * F_i_ox

/-- The contribution `Si_wv * F_i_wv` of one water-vapour spectral line to
`N''` in `gaseous_attenuation_exact` (source lines 227-248, one dataset
row). -/
noncomputable def wv_line_contrib (f p e theta : ℝ) (L : LineRow) : ℝ :=
  let D_f_wv0 := L.c3 * 1e-4 * (p * theta ^ L.c4 + (L.c5 * e * theta) ^ L.c6)
  let D_f_wv := 0.535 * D_f_wv0 +
    Real.sqrt (0.217 * D_f_wv0 ^ 2 + 2.1316e-12 * L.f0 ^ 2 / theta)
  let F_i_wv := f / L.f0 * ((D_f_wv) / ((L.f0 - f) ^ 2 + D_f_wv ^ 2) +
    (D_f_wv) / ((L.f0 + f) ^ 2 + D_f_wv ^ 2))
  let Si_wv := L.c1 * 1e-1 * e * theta ^ (3.5 : ℝ) * Real.exp (L.c2 * (1 - theta))
  Si_wv * F_i_wv

/-- The dry continuum term `N''_d` of `gaseous_attenuation_exact` (source
lines 249-251). -/
noncomputable def dry_continuum (f p e theta : ℝ) : ℝ :=
  let d := 5.6e-4 * (p + e) * theta ^ (0.8 : ℝ)
  f * p * theta ^ 2 * (6.14e-5 / (d * (1 + (f / d) ^ 2)) +
    1.4e-12 * p * theta ^ (1.5 : ℝ) / (1 + 1.9e-5 * f ^ (1.5 : ℝ)))

/-- `_ITU676_10.gaseous_attenuation_exact(f, p, rho, T)` (source lines
193-255).  The two spectral-line datasets are read from files on disk by an
external collaborator (`load_data`), so they enter here as parameters. -/
noncomputable def gaseous_attenuation_exact
    (oxLines wvLines : List LineRow) (f p rho T : ℝ) : ℝ :=
  let theta := 300 / T
  let e := rho * T / 216.7
  let N_pp_ox := (oxLines.map (ox_line_contrib f p e theta)).sum
  let N_pp_wv := (wvLines.map (wv_line_contrib f p e theta)).sum
  0.1820 * f * (N_pp_ox + N_pp_wv + dry_continuum f p e theta)

/-- `_ITU676_10.gaseous_attenuation_terrestrial_path(r, f, el, rho, P, T,
mode)` (source lines 307-318).  In the non-'approx' branch the source calls
`self.gaseous_attenuation_exact(f, el, rho, P, T)` — five arguments against
the four-parameter signature `(f, p, rho, T)` — which raises `TypeError`
before anything is computed. -/
noncomputable def gaseous_attenuation_terrestrial_path
    (r f el rho P T : ℝ) (mode : String) : Except PyErr ℝ :=
  if mode = "approx" then
    let gg := gaseous_attenuation_approximation f el rho P T
    Except.ok ((gg.1 + gg.2) * r)
  else
    Except.error PyErr.typeError

/-- The 922 layer thicknesses of the exact slant-path integration:
`delta_h = 0.0001 * np.exp((np.arange(1, 923) - 1) / 100)` (source line 331). -/
noncomputable def layer_thicknesses : List ℝ :=
  (List.range' 1 922).map (fun n : ℕ => 0.0001 * Real.exp (((n : ℝ) - 1) / 100))

/-- `h_n = np.cumsum(delta_h)` (source line 332). -/
noncomputable def layer_heights : List ℝ := cumsum layer_thicknesses

/-- The per-layer data rows `(t, press, r, delta, n_r)` that the exact
slant-path loop zips over (source lines 333-345): standard temperature and
pressure at each cumulative height, radius `6371 + h`, the layer thickness,
and the ratio of successive refractive indices (the last one padded with
itself, `np.pad(..., mode='edge')`).  `standard_temperature`,
`standard_pressure` and `radio_refractive_index` are external collaborators,
passed as parameters; `rho` is whatever the caller's local `rho` holds at
this point. -/
noncomputable def slant_layers (stdTemp stdPress : ℝ → ℝ)
    (refrIdx : ℝ → ℝ → ℝ → ℝ) (rho T : ℝ) : List (ℝ × ℝ × ℝ × ℝ × ℝ) :=
  let T_n := layer_heights.map stdTemp
  let press_n := layer_heights.map stdPress
  let e := rho * T / 216.7
  let n_n := press_n.map (fun press => refrIdx press e T)
  let n_ratios := (n_n.drop 1 ++ [n_n.getLastD 1]).zipWith (fun a b => a / b) n_n
  let r_n := layer_heights.map (fun h => 6371 + h)
  T_n.zip (press_n.zip (r_n.zip (layer_thicknesses.zip n_ratios)))

/-- One iteration of the exact slant-path loop (source lines 344-352): the
state is `(Agas, b)`; the layer contributes path segment `a`, the Snell
update `b = arcsin(n_r * sin(alpha))` follows. -/
noncomputable def slant_step (oxLines wvLines : List LineRow) (f rho : ℝ)
    (st : ℝ × ℝ) (lay : ℝ × ℝ × ℝ × ℝ × ℝ) : ℝ × ℝ :=
  let Agas := st.1
  let b := st.2
  let t := lay.1
  let press := lay.2.1
  let r := lay.2.2.1
  let delta := lay.2.2.2.1
  let n_r := lay.2.2.2.2
  let a := - r * Real.cos b + 0.5 * Real.sqrt
    (4 * r ^ 2 * (Real.cos b) ^ 2 + 8 * r * delta + 4 * delta ^ 2)
  let alpha := Real.pi - Real.arccos ((- a ^ 2 - 2 * r * delta - delta ^ 2) /
    (2 * a * r + 2 * a * delta))
  let gamma := gaseous_attenuation_exact oxLines wvLines f press rho t
  (Agas + a * gamma, Real.arcsin (n_r * Real.sin alpha))

/-- `_ITU676_10.gaseous_attenuation_slant_path(f, el, rho, P, T, mode)`
(source lines 320-354).  In the non-'approx' branch the source overwrites
the local `rho` with the constant `7.5` (line 335) before building the layer
profile and running the loop. -/
noncomputable def gaseous_attenuation_slant_path (stdTemp stdPress : ℝ → ℝ)
    (refrIdx : ℝ → ℝ → ℝ → ℝ) (oxLines wvLines : List LineRow)
    (f el rho P T : ℝ) (mode : String) : ℝ :=
  if mode = "approx" then
    let gg := gaseous_attenuation_approximation f el rho P T
    let hh := slant_inclined_path_coefficients f P
    (gg.1 * hh.1 + gg.2 * hh.2) / Real.sin (deg2rad el)
  else
    let rho := (7.5 : ℝ)
    let b := Real.pi / 2 - deg2rad el
    ((slant_layers stdTemp stdPress refrIdx rho T).foldl
      (slant_step oxLines wvLines f rho) (0, b)).1

/-- `_ITU676_10.gaseous_attenuation_inclined_path(f, el, rho, P, T, h1, h2,
mode)` (source lines 356-402).  The height guard raises `ValueError` first;
in the non-'approx' branch the source then calls
`self.gaseous_attenuation_exact(f, el, rho, P, T)` — five arguments against
the four-parameter signature — which raises `TypeError`. -/
noncomputable def gaseous_attenuation_inclined_path
    (f el rho P T h1 h2 : ℝ) (mode : String) : Except PyErr ℝ :=
  if h1 > 10 ∨ h2 > 10 then Except.error PyErr.valueError
  else if mode = "approx" then
    let rho := rho * Real.exp (h1 / 2)
    let gg := gaseous_attenuation_approximation f el rho P T
    let hh := slant_inclined_path_coefficients f P
    let h0 := hh.1
    let hw := hh.2
    if 5 < el ∧ el < 90 then
      let h0_p := h0 * (Real.exp (-h1 / h0) - Real.exp (-h2 / h0))
      let hw_p := hw * (Real.exp (-h1 / hw) - Real.exp (-h2 / hw))
      Except.ok ((gg.1 * h0_p + gg.2 * hw_p) / Real.sin (deg2rad el))
    else
      let F := fun x : ℝ => 1 / (0.661 * x + 0.339 * Real.sqrt (x ^ 2 + 5.51))
      let el1 := el
      let el2 := -el
      let Re := (8500 : ℝ)
      let xi := fun (eli hi : ℝ) => Real.tan (deg2rad eli * Real.sqrt ((Re + hi) / h0))
      let xi_p := fun (eli hi : ℝ) => Real.tan (deg2rad eli * Real.sqrt ((Re + hi) / hw))
      let eq_33 := fun (h_num h_den elv x : ℝ) =>
        Real.sqrt (Re + h_num) * F x * Real.exp (-h_num / h_den) / Real.cos (deg2rad elv)
      Except.ok (gg.1 * Real.sqrt h0 *
          (eq_33 h1 h0 el1 (xi el1 h1) - eq_33 h2 h0 el2 (xi el2 h2)) +
        gg.2 * Real.sqrt hw *
          (eq_33 h1 hw el1 (xi_p el1 h1) - eq_33 h2 hw el2 (xi_p el2 h2)))
  else
    Except.error PyErr.typeError

/-- `_ITU676_10.zenit_water_vapour_attenuation(lat, lon, p, f, V_t, alt)`
(source lines 404-415); `total_water_vapour_content` is an external
collaborator, passed as the parameter `twvc`. -/
noncomputable def zenit_water_vapour_attenuation
    (twvc : ℝ → ℝ → ℝ → Option ℝ → ℝ)
    (lat lon p f : ℝ) (V_t : Option ℝ) (alt : Option ℝ) : ℝ :=
  let f_ref := (20.6 : ℝ)
  let p_ref := (780 : ℝ)
  let V := match V_t with
    | some v => v
    | none => twvc lat lon p alt
  let rho_ref := V / 4
  let t_ref := 14 * Real.log (0.22 * V / 4) + 3
  0.0173 * V * gammaw_approx f p_ref rho_ref (t_ref + 273) /
    gammaw_approx f_ref p_ref rho_ref (t_ref + 273)

end ITU676v10

namespace ITU676v9

/-- `_ITU676_9.gammaw_approx(*args)` forwards to `_ITU676_10.gammaw_approx`
(source lines 428-429). -/
noncomputable def gammaw_approx (f P rho T : ℝ) : ℝ :=
  ITU676v10.gammaw_approx f P rho T

/-- `_ITU676_9.gamma0_approx(*args)` forwards to `_ITU676_10.gamma0_approx`
(source lines 431-432). -/
noncomputable def gamma0_approx (f P T : ℝ) : ℝ :=
  ITU676v10.gamma0_approx f P T

/-- `_ITU676_9.gaseous_attenuation_inclined_path(*args)` forwards to
`_ITU676_10` (source lines 434-435). -/
noncomputable def gaseous_attenuation_inclined_path
    (f el rho P T h1 h2 : ℝ) (mode : String) : Except PyErr ℝ :=
  ITU676v10.gaseous_attenuation_inclined_path f el rho P T h1 h2 mode

/-- `_ITU676_9.zenit_water_vapour_attenuation(*args)` forwards to
`_ITU676_10` (source lines 437-438). -/
noncomputable def zenit_water_vapour_attenuation
    (twvc : ℝ → ℝ → ℝ → Option ℝ → ℝ)
    (lat lon p f : ℝ) (V_t : Option ℝ) (alt : Option ℝ) : ℝ :=
  ITU676v10.zenit_water_vapour_attenuation twvc lat lon p f V_t alt

/-- `_ITU676_9.gaseous_attenuation_approximation(*args)` forwards to
`_ITU676_10` (source lines 440-441). -/
noncomputable def gaseous_attenuation_approximation (f el rho P T : ℝ) : ℝ × ℝ :=
  ITU676v10.gaseous_attenuation_approximation f el rho P T

/-- `_ITU676_9.slant_inclined_path_coefficients(*args)` forwards to
`_ITU676_10` (source lines 443-444). -/
noncomputable def slant_inclined_path_coefficients (f p : ℝ) : ℝ × ℝ :=
  ITU676v10.slant_inclined_path_coefficients f p

/-- `_ITU676_9.gaseous_attenuation_terrestrial_path(*args)` forwards to
`_ITU676_10` (source lines 446-447). -/
noncomputable def gaseous_attenuation_terrestrial_path
    (r f el rho P T : ℝ) (mode : String) : Except PyErr ℝ :=
  ITU676v10.gaseous_attenuation_terrestrial_path r f el rho P T mode

/-- `_ITU676_9.gaseous_attenuation_slant_path(*args)` forwards to
`_ITU676_10` (source lines 449-450).  (Only `gaseous_attenuation_exact` is
overridden by version 9, with its own `v9_lines_*` datasets — source lines
452-514; its body is the same formula as `ITU676v10.gaseous_attenuation_exact`
applied to the version-9 dataset parameters.) -/
noncomputable def gaseous_attenuation_slant_path (stdTemp stdPress : ℝ → ℝ)
    (refrIdx : ℝ → ℝ → ℝ → ℝ) (oxLines wvLines : List LineRow)
    (f el rho P T : ℝ) (mode : String) : ℝ :=
  ITU676v10.gaseous_attenuation_slant_path stdTemp stdPress refrIdx oxLines wvLines
    f el rho P T mode

end ITU676v9

/-- The facade's `gamma0_approx` dispatch, `__ITU676.gamma0_approx`: it
looks the method up on `self.instance`.  `_ITU676_11` defines no methods at
all, so the lookup on a version-11 instance raises `AttributeError`. -/
noncomputable def facade_gamma0 : Inst → ℝ → ℝ → ℝ → Except PyErr ℝ
  | Inst.v11, _, _, _ => Except.error PyErr.attributeError
  | Inst.v10, f, P, T => Except.ok (ITU676v10.gamma0_approx f P T)
  | Inst.v9, f, P, T => Except.ok (ITU676v9.gamma0_approx f P T)

/-- Calling `gamma0_approx` "with the current version set to `v`": construct
the model at version `v` (as `change_version` does), then dispatch through
the facade. -/
noncomputable def facade_call_gamma0 (v : Int) (f P T : ℝ) : Except PyErr ℝ :=
  (ITU676_init v).bind (fun i => facade_gamma0 i f P T)

/-- Claim C1 (counterexample): with the current version set to 8 the call to
`gamma0_approx` (an unoverridden operation) does not yield a result
bit-identical to the same call under version 10 — it yields no result at
all, since `__ITU676.__init__` evaluates the undefined name `_ITU676_8` and
raises `NameError`, while version 10 returns a value. -/
theorem C1_counterexample :
    facade_call_gamma0 8 10 1013 288 ≠ facade_call_gamma0 10 10 1013 288 := by
  simp [facade_call_gamma0, ITU676_init, facade_gamma0, Except.bind]

/-- Claim C1 (amended): for version 9 — the only version in 1..9 that can be
selected at all — every one of the eight operations without a
version-specific override forwards unmodified to version 10 and therefore
yields bit-identical results for identical inputs; the only override is
version 9's exact-mode spectral-line dataset
(`_ITU676_9.gaseous_attenuation_exact`). -/
theorem C1_delegation_v9 :
    (∀ f P rho T : ℝ, ITU676v9.gammaw_approx f P rho T =
      ITU676v10.gammaw_approx f P rho T) ∧
    (∀ f P T : ℝ, ITU676v9.gamma0_approx f P T = ITU676v10.gamma0_approx f P T) ∧
    (∀ (f el rho P T : ℝ),
      ITU676v9.gaseous_attenuation_approximation f el rho P T =
        ITU676v10.gaseous_attenuation_approximation f el rho P T) ∧
    (∀ f p : ℝ, ITU676v9.slant_inclined_path_coefficients f p =
      ITU676v10.slant_inclined_path_coefficients f p) ∧
    (∀ (r f el rho P T : ℝ) (mode : String),
      ITU676v9.gaseous_attenuation_terrestrial_path r f el rho P T mode =
        ITU676v10.gaseous_attenuation_terrestrial_path r f el rho P T mode) ∧
    (∀ (stdTemp stdPress : ℝ → ℝ) (refrIdx : ℝ → ℝ → ℝ → ℝ)
      (oxLines wvLines : List LineRow) (f el rho P T : ℝ) (mode : String),
      ITU676v9.gaseous_attenuation_slant_path stdTemp stdPress refrIdx
          oxLines wvLines f el rho P T mode =
        ITU676v10.gaseous_attenuation_slant_path stdTemp stdPress refrIdx
          oxLines wvLines f el rho P T mode) ∧
    (∀ (f el rho P T h1 h2 : ℝ) (mode : String),
      ITU676v9.gaseous_attenuation_inclined_path f el rho P T h1 h2 mode =
        ITU676v10.gaseous_attenuation_inclined_path f el rho P T h1 h2 mode) ∧
    (∀ (twvc : ℝ → ℝ → ℝ → Option ℝ → ℝ) (lat lon p f : ℝ)
      (V_t alt : Option ℝ),
      ITU676v9.zenit_water_vapour_attenuation twvc lat lon p f V_t alt =
        ITU676v10.zenit_water_vapour_attenuation twvc lat lon p f V_t alt) :=
  ⟨fun _ _ _ _ => rfl, fun _ _ _ => rfl, fun _ _ _ _ _ => rfl, fun _ _ => rfl,
    fun _ _ _ _ _ _ _ => rfl, fun _ _ _ _ _ _ _ _ _ _ _ => rfl,
    fun _ _ _ _ _ _ _ _ => rfl, fun _ _ _ _ _ _ _ => rfl⟩

/-- Claim C2: the approx branch of
`gaseous_attenuation_terrestrial_path` does return
`(gamma0_approx + gammaw_approx) * r`, but the exact branch does not return
`gaseous_attenuation_exact(f, P, rho, T) * r` — the source passes five
arguments `(f, el, rho, P, T)` to the four-parameter
`gaseous_attenuation_exact(f, p, rho, T)`, raising `TypeError`. -/
theorem C2_terrestrial_eval (r f el rho P T : ℝ) :
    ITU676v10.gaseous_attenuation_terrestrial_path r f el rho P T "approx" =
      Except.ok ((ITU676v10.gamma0_approx f P T +
        ITU676v10.gammaw_approx f P rho T) * r) ∧
    ITU676v10.gaseous_attenuation_terrestrial_path r f el rho P T "exact" =
      Except.error PyErr.typeError := by
  constructor <;>
    simp [ITU676v10.gaseous_attenuation_terrestrial_path,
      ITU676v10.gaseous_attenuation_approximation]

/-- Claim C3: `gamma0_approx` is exactly the six-band piecewise dispatch on
the frequency: the closed form `gamma0_band1` for `f <= 54`, the log-domain
quadratic interpolation `gamma0_band2` through `gamma54`, `gamma58`,
`gamma60` for `54 < f <= 60`, the linear interpolation `gamma0_band3`
between `gamma60` and `gamma62` for `60 < f <= 62`, the log-domain quadratic
interpolation `gamma0_band4` through `gamma62`, `gamma64`, `gamma66` for
`62 < f <= 66`, the closed form `gamma0_band5` for `66 < f <= 120`, and the
closed form with the `delta` correction `gamma0_band6` for `f > 120`, each
parameterized by `rp = P/1013` and `rt = 288/T`. -/
theorem C3_gamma0_piecewise (f P T : ℝ) :
    ITU676v10.gamma0_approx f P T =
      if f ≤ 54 then ITU676v10.gamma0_band1 f P T
      else if 54 < f ∧ f ≤ 60 then ITU676v10.gamma0_band2 f P T
      else if 60 < f ∧ f ≤ 62 then ITU676v10.gamma0_band3 f P T
      else if 62 < f ∧ f ≤ 66 then ITU676v10.gamma0_band4 f P T
      else if 66 < f ∧ f ≤ 120 then ITU676v10.gamma0_band5 f P T
      else ITU676v10.gamma0_band6 f P T := rfl

/-- Claim C4 (counterexample): the sum in `gammaw_approx` does not consist
of ten resonance terms — at `f = 10`, `P = 1013`, `rho = 7.5`, `T = 288`
(indeed at any input) the list of its addends has nine entries, one per
center frequency 22.235, 183.31, 321.226, 325.153, 380, 448, 557, 752 and
1780 GHz. -/
theorem C4_counterexample : ¬ ((gammaw_terms 10 1013 7.5 288).length = 10) := by
  simp [gammaw_terms]

/-- Claim C4 (amended): `gammaw_approx(f, P, rho, T)` equals the sum of nine
(not ten) Lorentzian-like resonance terms centered at 22.235, 183.31,
321.226, 325.153, 380, 448, 557, 752 and 1780 GHz, weighted by the
correction factors `eta1 = 0.955*rp*rt^0.68 + 0.006*rho` and
`eta2 = 0.735*rp*rt^0.50 + 0.0353*rt^4*rho`, with the symmetry factor
`g(f, fi) = 1 + ((f-fi)/(f+fi))^2` applied to selected lines, the whole sum
scaled by `f^2 * rt^2.5 * rho * 1e-4`. -/
theorem C4_gammaw_nine_terms (f P rho T : ℝ) :
    (gammaw_terms f P rho T).length = 9 ∧
    ITU676v10.gammaw_approx f P rho T =
      (gammaw_terms f P rho T).sum *
        (f ^ 2 * (288 / T) ^ (2.5 : ℝ) * rho * 1e-4) := by
  refine ⟨rfl, ?_⟩
  simp only [ITU676v10.gammaw_approx, gammaw_terms, List.sum_cons, List.sum_nil]
  ring

/-- Claim C7: `gaseous_attenuation_inclined_path` raises the hard
`ValueError` height rejection exactly when `h1 > 10` or `h2 > 10`; the guard
is the first statement of the function, before any attenuation computation,
and for `h1 <= 10` and `h2 <= 10` no such error is raised (every other
outcome is either a value or the distinct exact-mode `TypeError`). -/
theorem C7_height_guard (f el rho P T h1 h2 : ℝ) (mode : String) :
    ITU676v10.gaseous_attenuation_inclined_path f el rho P T h1 h2 mode =
      Except.error PyErr.valueError ↔ (h1 > 10 ∨ h2 > 10) := by
  simp only [ITU676v10.gaseous_attenuation_inclined_path]
  split_ifs with hg hm hel
  · simp [hg]
  · simp [hg]
  · simp [hg]
  · simp [hg]

/-- Claim C9: the exact-mode slant-path integration runs over a fixed,
input-independent profile of exactly 922 layers whose thicknesses are
`delta_h_i = 1e-4 * exp(i/100)` for `i = 0..921`, and the returned
attenuation is the first component of the fold of `slant_step` (which
accumulates `Agas + a * gamma_exact` and performs the Snell update
`arcsin(n_r * sin(alpha))`) over those layers. -/
theorem C9_layer_structure :
    ITU676v10.layer_thicknesses =
      (List.range 922).map (fun i : ℕ => 1e-4 * Real.exp ((i : ℝ) / 100)) ∧
    ITU676v10.layer_thicknesses.length = 922 ∧
    (∀ (stdTemp stdPress : ℝ → ℝ) (refrIdx : ℝ → ℝ → ℝ → ℝ) (rho T : ℝ),
      (ITU676v10.slant_layers stdTemp stdPress refrIdx rho T).length = 922) ∧
    (∀ (stdTemp stdPress : ℝ → ℝ) (refrIdx : ℝ → ℝ → ℝ → ℝ)
      (oxLines wvLines : List LineRow) (f el rho P T : ℝ),
      ITU676v10.gaseous_attenuation_slant_path stdTemp stdPress refrIdx
          oxLines wvLines f el rho P T "exact" =
        ((ITU676v10.slant_layers stdTemp stdPress refrIdx 7.5 T).foldl
          (ITU676v10.slant_step oxLines wvLines f 7.5)
          (0, Real.pi / 2 - deg2rad el)).1) := by
  refine ⟨?_, ?_, ?_, ?_⟩
  · rw [ITU676v10.layer_thicknesses, List.range'_eq_map_range, List.map_map]
    congr 1
    funext n
    simp only [Function.comp_apply]
    push_cast
    ring_nf
  · rw [ITU676v10.layer_thicknesses, List.length_map, List.length_range']
  · intro stdTemp stdPress refrIdx rho T
    have hthick : ITU676v10.layer_thicknesses.length = 922 := by
      rw [ITU676v10.layer_thicknesses, List.length_map, List.length_range']
    have hheights : ITU676v10.layer_heights.length = 922 := by
      rw [ITU676v10.layer_heights, cumsum, List.length_tail, List.length_scanl,
        hthick]
    simp only [ITU676v10.slant_layers, List.length_zip, List.length_zipWith,
      List.length_map, List.length_append, List.length_drop, List.length_cons,
      List.length_nil, hthick, hheights]
    norm_num
  · intro stdTemp stdPress refrIdx oxLines wvLines f el rho P T
    rfl

/-- Claim C10: in exact mode `gaseous_attenuation_slant_path` ignores the
caller-supplied water-vapour density entirely — the local `rho` is
overwritten with the constant 7.5 g/m³ before the layer loop — so two calls
differing only in `rho` return identical attenuation. -/
theorem C10_rho_ignored (stdTemp stdPress : ℝ → ℝ) (refrIdx : ℝ → ℝ → ℝ → ℝ)
    (oxLines wvLines : List LineRow) (f el P T rho1 rho2 : ℝ) :
    ITU676v10.gaseous_attenuation_slant_path stdTemp stdPress refrIdx oxLines
        wvLines f el rho1 P T "exact" =
      ITU676v10.gaseous_attenuation_slant_path stdTemp stdPress refrIdx oxLines
        wvLines f el rho2 P T "exact" := rfl

/-- Claim C5: the advisory condition actually implemented is `f > 350` or
`el < 5` or `np.mod(el, 90) < 5`, which is not "some elevation angle lies
outside [5°, 90°]": at `f = 10` with elevation 100° (outside [5°, 90°]) no
advisory is emitted, because `100 mod 90 = 10`, while at elevation 90°
(inside [5°, 90°]) an advisory is emitted, because `90 mod 90 = 0`.  The
computation does proceed identically in every case: the approximation
returns the pair `(gamma0_approx, gammaw_approx)` regardless of any
advisory. -/
theorem C5_advisory_eval :
    (¬ ITU676v10.approx_advisory 10 [100]) ∧
    ((100 : ℝ) < 5 ∨ 90 < (100 : ℝ)) ∧
    ITU676v10.approx_advisory 10 [90] ∧
    ((5 : ℝ) ≤ 90 ∧ (90 : ℝ) ≤ 90) ∧
    (∀ f el rho P T : ℝ,
      ITU676v10.gaseous_attenuation_approximation f el rho P T =
        (ITU676v10.gamma0_approx f P T, ITU676v10.gammaw_approx f P rho T)) := by
  have h100 : ⌊(100 : ℝ) / 90⌋ = 1 := by
    rw [Int.floor_eq_iff]; norm_num
  have h90 : ⌊(90 : ℝ) / 90⌋ = 1 := by
    rw [Int.floor_eq_iff]; norm_num
  refine ⟨?_, by norm_num, ?_, by norm_num, fun _ _ _ _ _ => rfl⟩
  · rw [ITU676v10.approx_advisory]
    rintro (h | h | h)
    · norm_num at h
    · obtain ⟨e, he, hlt⟩ := h
      rw [List.mem_singleton] at he
      subst he
      norm_num at hlt
    · obtain ⟨e, he, hlt⟩ := h
      rw [List.mem_singleton] at he
      subst he
      rw [npMod, h100] at hlt
      norm_num at hlt
  · rw [ITU676v10.approx_advisory]
    refine Or.inr (Or.inr ⟨90, List.mem_singleton.mpr rfl, ?_⟩)
    rw [npMod, h90]
    norm_num

/-- At reference conditions `rp = rt = 1` the fit helper `phi` is 1. -/
lemma phi676_one (a b c d : ℝ) : ITU676v10.phi676 1 1 a b c d = 1 := by
  norm_num [ITU676v10.phi676, Real.one_rpow, Real.exp_zero]

/-- The fit helper `phi` is positive for positive `rp`, `rt`. -/
lemma phi676_pos {rp rt : ℝ} (hrp : 0 < rp) (hrt : 0 < rt) (a b c d : ℝ) :
    0 < ITU676v10.phi676 rp rt a b c d :=
  mul_pos (mul_pos (Real.rpow_pos_of_pos hrp a) (Real.rpow_pos_of_pos hrt b))
    (Real.exp_pos _)

/-- The anchor `gamma60` is positive for positive `rp`, `rt`. -/
lemma gamma60_pos {rp rt : ℝ} (hrp : 0 < rp) (hrt : 0 < rt) :
    0 < ITU676v10.gamma60 rp rt :=
  mul_pos (by norm_num) (phi676_pos hrp hrt _ _ _ _)

/-- The anchor `gamma62` is positive for positive `rp`, `rt`. -/
lemma gamma62_pos {rp rt : ℝ} (hrp : 0 < rp) (hrt : 0 < rt) :
    0 < ITU676v10.gamma62 rp rt :=
  mul_pos (by norm_num) (phi676_pos hrp hrt _ _ _ _)

/-- Claim C8 (counterexample): at `P = 1013` hPa and `T = 288` K — squarely
inside the model's validity range — the adjacent band formulas of
`gamma0_approx` do not agree within 1e-3 relative tolerance at the 54 GHz
boundary, nor at the 66 GHz boundary.  At 54 GHz the `f <= 54` closed form
gives `(7.2/(54^2+0.34) + 0.62/0.83)*54^2*1e-3 ≈ 2.1854` while the
interpolation branch reduces exactly to the anchor `gamma54 = 2.192`, a
relative gap of about 3.0e-3; at 66 GHz the interpolation branch reduces to
the anchor `gamma66 = 1.908` while the `66 < f <= 120` closed form gives
about 1.9032, a relative gap of about 2.5e-3. -/
theorem C8_counterexample :
    (¬ (|ITU676v10.gamma0_band1 54 1013 288 - ITU676v10.gamma0_band2 54 1013 288| ≤
        1e-3 * max |ITU676v10.gamma0_band1 54 1013 288|
          |ITU676v10.gamma0_band2 54 1013 288|)) ∧
    (¬ (|ITU676v10.gamma0_band5 66 1013 288 - ITU676v10.gamma0_band4 66 1013 288| ≤
        1e-3 * max |ITU676v10.gamma0_band5 66 1013 288|
          |ITU676v10.gamma0_band4 66 1013 288|)) := by
  have h1 : (1013 : ℝ) / 1013.0 = 1 := by norm_num
  have h2 : (288.0 : ℝ) / 288 = 1 := by norm_num
  have hg54 : ITU676v10.gamma54 1 1 = 2.192 := by
    rw [ITU676v10.gamma54, phi676_one]; norm_num
  have hg66 : ITU676v10.gamma66 1 1 = 1.908 := by
    rw [ITU676v10.gamma66, phi676_one]; norm_num
  have hb2 : ITU676v10.gamma0_band2 54 1013 288 = 2.192 := by
    simp only [ITU676v10.gamma0_band2, h1, h2]
    have harg : Real.log (ITU676v10.gamma54 1 1) / 24.0 * ((54 : ℝ) - 58) *
          ((54 : ℝ) - 60) -
        Real.log (ITU676v10.gamma58 1 1) / 8.0 * ((54 : ℝ) - 54) * ((54 : ℝ) - 60) +
        Real.log (ITU676v10.gamma60 1 1) / 12.0 * ((54 : ℝ) - 54) * ((54 : ℝ) - 58) =
        Real.log (ITU676v10.gamma54 1 1) := by ring
    rw [harg, hg54, Real.exp_log (by norm_num)]
  have hb4 : ITU676v10.gamma0_band4 66 1013 288 = 1.908 := by
    simp only [ITU676v10.gamma0_band4, h1, h2]
    have harg : Real.log (ITU676v10.gamma62 1 1) / 8.0 * ((66 : ℝ) - 64) *
          ((66 : ℝ) - 66) -
        Real.log (ITU676v10.gamma64 1 1) / 4.0 * ((66 : ℝ) - 62) * ((66 : ℝ) - 66) +
        Real.log (ITU676v10.gamma66 1 1) / 8.0 * ((66 : ℝ) - 62) * ((66 : ℝ) - 64) =
        Real.log (ITU676v10.gamma66 1 1) := by ring
    rw [harg, hg66, Real.exp_log (by norm_num)]
  have hb1 : ITU676v10.gamma0_band1 54 1013 288 =
      (7.2 / (54 ^ 2 + 0.34) + 0.62 / 0.83) * 54 ^ 2 * 1e-3 := by
    simp only [ITU676v10.gamma0_band1, h1, h2, ITU676v10.xi1, ITU676v10.xi2,
      ITU676v10.xi3, phi676_one]
    rw [show ((54 : ℝ) - 54) = 0 by norm_num,
      Real.zero_rpow (by norm_num : (1.16 : ℝ) * 1 ≠ 0)]
    norm_num [Real.one_rpow]
  have hb5 : ITU676v10.gamma0_band5 66 1013 288 =
      (3.02e-4 + 0.283 / ((66 - 118.75) ^ 2 + 2.91) + 0.502 / 1.15) *
        66 ^ 2 * 1e-3 := by
    simp only [ITU676v10.gamma0_band5, h1, h2, ITU676v10.xi4, ITU676v10.xi5,
      ITU676v10.xi6, ITU676v10.xi7, phi676_one]
    rw [show ((66 : ℝ) - 66) = 0 by norm_num,
      Real.zero_rpow (by norm_num : (1.4346 : ℝ) * 1 ≠ 0)]
    norm_num [Real.one_rpow]
  constructor
  · rw [hb1, hb2, not_le]
    have habs : |((7.2 / (54 ^ 2 + 0.34) + 0.62 / 0.83) * 54 ^ 2 * 1e-3 : ℝ) - 2.192| =
        2.192 - (7.2 / (54 ^ 2 + 0.34) + 0.62 / 0.83) * 54 ^ 2 * 1e-3 := by
      rw [abs_of_neg (by norm_num)]; ring
    have ha : |((7.2 / (54 ^ 2 + 0.34) + 0.62 / 0.83) * 54 ^ 2 * 1e-3 : ℝ)| =
        (7.2 / (54 ^ 2 + 0.34) + 0.62 / 0.83) * 54 ^ 2 * 1e-3 :=
      abs_of_pos (by norm_num)
    have hc : |(2.192 : ℝ)| = 2.192 := abs_of_pos (by norm_num)
    rw [habs, ha, hc, max_eq_right (by norm_num)]
    norm_num
  · rw [hb5, hb4, not_le]
    have habs : |((3.02e-4 + 0.283 / ((66 - 118.75) ^ 2 + 2.91) + 0.502 / 1.15) *
          66 ^ 2 * 1e-3 : ℝ) - 1.908| =
        1.908 - (3.02e-4 + 0.283 / ((66 - 118.75) ^ 2 + 2.91) + 0.502 / 1.15) *
          66 ^ 2 * 1e-3 := by
      rw [abs_of_neg (by norm_num)]; ring
    have ha : |((3.02e-4 + 0.283 / ((66 - 118.75) ^ 2 + 2.91) + 0.502 / 1.15) *
          66 ^ 2 * 1e-3 : ℝ)| =
        (3.02e-4 + 0.283 / ((66 - 118.75) ^ 2 + 2.91) + 0.502 / 1.15) *
          66 ^ 2 * 1e-3 :=
      abs_of_pos (by norm_num)
    have hc : |(1.908 : ℝ)| = 1.908 := abs_of_pos (by norm_num)
    rw [habs, ha, hc, max_eq_right (by norm_num)]
    norm_num

/-- Claim C8 (amended): for every positive pressure and temperature the
interpolation branches of `gamma0_approx` agree exactly at the interior
boundaries `f = 60` and `f = 62`, both sides reducing to the shared anchors
`gamma60` and `gamma62`; at the `f = 54` and `f = 66` boundaries the
adjacent closed forms are independent fits that differ by roughly 3e-3 and
2.5e-3 relative at `P = 1013`, `T = 288`, so no 1e-3 relative bound holds
there. -/
theorem C8_boundary_exact (P T : ℝ) (hP : 0 < P) (hT : 0 < T) :
    ITU676v10.gamma0_band2 60 P T = ITU676v10.gamma60 (P / 1013.0) (288.0 / T) ∧
    ITU676v10.gamma0_band3 60 P T = ITU676v10.gamma60 (P / 1013.0) (288.0 / T) ∧
    ITU676v10.gamma0_band3 62 P T = ITU676v10.gamma62 (P / 1013.0) (288.0 / T) ∧
    ITU676v10.gamma0_band4 62 P T = ITU676v10.gamma62 (P / 1013.0) (288.0 / T) := by
  have hrp : 0 < P / 1013.0 := by positivity
  have hrt : 0 < 288.0 / T := by positivity
  refine ⟨?_, ?_, ?_, ?_⟩
  · simp only [ITU676v10.gamma0_band2]
    have harg : Real.log (ITU676v10.gamma54 (P / 1013.0) (288.0 / T)) / 24.0 *
          ((60 : ℝ) - 58) * ((60 : ℝ) - 60) -
        Real.log (ITU676v10.gamma58 (P / 1013.0) (288.0 / T)) / 8.0 *
          ((60 : ℝ) - 54) * ((60 : ℝ) - 60) +
        Real.log (ITU676v10.gamma60 (P / 1013.0) (288.0 / T)) / 12.0 *
          ((60 : ℝ) - 54) * ((60 : ℝ) - 58) =
        Real.log (ITU676v10.gamma60 (P / 1013.0) (288.0 / T)) := by ring
    rw [harg, Real.exp_log (gamma60_pos hrp hrt)]
  · simp only [ITU676v10.gamma0_band3]
    ring
  · simp only [ITU676v10.gamma0_band3]
    ring
  · simp only [ITU676v10.gamma0_band4]
    have harg : Real.log (ITU676v10.gamma62 (P / 1013.0) (288.0 / T)) / 8.0 *
          ((62 : ℝ) - 64) * ((62 : ℝ) - 66) -
        Real.log (ITU676v10.gamma64 (P / 1013.0) (288.0 / T)) / 4.0 *
          ((62 : ℝ) - 62) * ((62 : ℝ) - 66) +
        Real.log (ITU676v10.gamma66 (P / 1013.0) (288.0 / T)) / 8.0 *
          ((62 : ℝ) - 62) * ((62 : ℝ) - 64) =
        Real.log (ITU676v10.gamma62 (P / 1013.0) (288.0 / T)) := by ring
    rw [harg, Real.exp_log (gamma62_pos hrp hrt)]

/-- Witness for the amended claim C8 at `P = 1013` hPa, `T = 288` K. -/
theorem C8_boundary_exact_witness :
    (0 : ℝ) < 1013 ∧ (0 : ℝ) < 288 ∧
    (ITU676v10.gamma0_band2 60 1013 288 =
        ITU676v10.gamma60 ((1013 : ℝ) / 1013.0) (288.0 / 288) ∧
      ITU676v10.gamma0_band3 60 1013 288 =
        ITU676v10.gamma60 ((1013 : ℝ) / 1013.0) (288.0 / 288) ∧
      ITU676v10.gamma0_band3 62 1013 288 =
        ITU676v10.gamma62 ((1013 : ℝ) / 1013.0) (288.0 / 288) ∧
      ITU676v10.gamma0_band4 62 1013 288 =
        ITU676v10.gamma62 ((1013 : ℝ) / 1013.0) (288.0 / 288)) :=
  ⟨by norm_num, by norm_num, C8_boundary_exact 1013 288 (by norm_num) (by norm_num)⟩
